import Mathlib

/-!
Verification of the eruption daemon's event-and-render orchestrator
(src/main.rs): the per-source drain loops of the event dispatcher, the
barrier-wait loops, the render pipeline of the main loop, the profile
switch, and the shutdown path.  Concurrency is embedded shallowly: the
worker side of each barrier is a parameter (does a given worker decrement
the counter before the timeout, does a send on its channel succeed), and
the dispatcher's loops are translated as structural recursion over a
snapshot of the relevant queue.
-/

namespace Eruption

/-- Raw evdev event codes as matched by the dispatcher: `EventCode::EV_KEY`
and the `EventCode::EV_REL` axes that `process_mouse_events` distinguishes
(REL_X, REL_Y, REL_Z, REL_WHEEL, REL_HWHEEL); everything else falls into
the ignored catch-all arms. -/
inductive EventCode where
  | evKey (code : Nat)
  | evRelX
  | evRelY
  | evRelZ
  | evRelWheel
  | evRelHWheel
  | otherCode
deriving DecidableEq

/-- Messages sent from the dispatcher to a Lua VM worker (`script::Message`
as used in main.rs). The opaque payloads (HID event data, system event
data) are irrelevant to the dispatch logic and elided. -/
inductive Message where
  | keyDown (index : Nat)
  | keyUp (index : Nat)
  | mouseButtonDown (index : Nat)
  | mouseButtonUp (index : Nat)
  | mouseWheelEvent (direction : Nat)
  | mouseMove (dx dy dz : Int)
  | hidEvent
  | systemEvent
  | tick (t : Nat)
  | realizeColorMap
  | unload
  | quit (code : Nat)
deriving DecidableEq

/-- The dispatcher's broadcast pattern, used at every event dispatch site
(`for (idx, lua_tx) in LUA_TXS.lock().iter().enumerate()` guarded by
`if !failed_txs.contains(&idx)`): the list of worker indices the message
is sent to, given `n = LUA_TXS.lock().len()` and the failed set. -/
def broadcastLive (n : Nat) (failedTxs : List Nat) : List Nat :=
  (List.range n).filter (fun idx => ! failedTxs.contains idx)

/-- The arm count written into an event-kind barrier before a broadcast:
`LUA_TXS.lock().len() - failed_txs.len()` (natural subtraction, as in
Rust's usize arithmetic which never underflows here). -/
def armCount (n : Nat) (failedTxs : List Nat) : Nat :=
  n - failedTxs.length

/-- The Tick broadcast at the end of each main-loop iteration
(main.rs 1487-1499): the same skip pattern as the event dispatch sites;
a send failure inserts the index into `failed_txs` but the recipients are
exactly the indices outside the failed set. -/
def tickRecipients (n : Nat) (failedTxs : List Nat) : List Nat :=
  (List.range n).filter (fun index => ! failedTxs.contains index)

/-- The shutdown broadcast after the main loop exits (main.rs 1876-1880):
`for lua_tx in LUA_TXS.lock().iter()` with no failed-set filter, so
`Quit(0)` goes to every worker index. -/
def quitRecipients (n : Nat) : List Nat :=
  List.range n

/-- The arm count of the Quit barrier at shutdown (main.rs 1874):
`LUA_TXS.lock().len()`, with no subtraction of the failed set. -/
def quitArmCount (n : Nat) : Nat :=
  n

/-- One event-kind barrier wait loop of the dispatcher, e.g. for KeyDown
(main.rs 1181-1192) and identically for KeyUp, MouseButtonDown,
MouseButtonUp, MouseMove, MouseOther (wheel) and HidEvent (main.rs
698-709): `loop { lock pending; wait_for(pending, TIMEOUT_CONDITION_MILLIS);
if pending == 0 break }`.  The result of `wait_for` (whether it timed out)
is never inspected and nothing is logged in the body.  `pendingObs k` is
the value of the pending counter observed when the k-th `wait_for` call
returns (each call blocks for at most one timeout period);
`eventWaitExits pendingObs fuel` states that the loop has exited within
`fuel` iterations, i.e. within `fuel` timeout periods. -/
def eventWaitExits (pendingObs : Nat → Nat) (fuel : Nat) : Bool :=
  (List.range fuel).any (fun k => pendingObs k == 0)

/-- The concurrent behaviour of one worker during a render pass, as seen
by the dispatcher: whether the worker's index is already in `failed_txs`
when the pass starts, whether the `RealizeColorMap` send on its channel
succeeds, and whether it decrements the blend barrier (and signals the
condvar) before `TIMEOUT_CONDITION_MILLIS` elapses. -/
structure RenderWorker where
  failed : Bool
  sendOk : Bool
  responds : Bool
deriving DecidableEq

/-- Outcome of one render pass (main.rs 1402-1483). `sends` lists, in
order, the indices sent `RealizeColorMap`; `newFailed` the indices newly
inserted into `failed_txs` by send errors; `pushed` whether
`send_led_map` was executed; `markerAdvanced` whether
`saved_frame_generation.store(current_frame_generation)` was executed. -/
structure RenderOut where
  dropFrame : Bool
  sends : List Nat
  newFailed : List Nat
  pushed : Bool
  markerAdvanced : Bool
deriving DecidableEq

/-- The blend loop of the render pass (main.rs 1420-1451), iterating over
`LUA_TXS.lock().iter().enumerate()` starting at index `i0`: a worker whose
index is in the failed set is skipped and `drop_frame` is set in the
`else` branch; otherwise `RealizeColorMap` is sent (a send error inserts
the index into `failed_txs`), then the dispatcher waits on the blend
barrier; a timed-out wait sets `drop_frame` and breaks out of the loop. -/
def renderLoop (ws : List RenderWorker) (i0 : Nat) (dropFrame : Bool)
    (sends newFailed : List Nat) : Bool × List Nat × List Nat :=
  match ws with
  | [] => (dropFrame, sends, newFailed)
  | w :: rest =>
    if w.failed then
      renderLoop rest (i0 + 1) true sends newFailed
    else
      if w.responds then
        renderLoop rest (i0 + 1) dropFrame (sends ++ [i0])
          (if w.sendOk then newFailed else newFailed ++ [i0])
      else
        (true, sends ++ [i0], if w.sendOk then newFailed else newFailed ++ [i0])

/-- The full render pass (main.rs 1402-1483), given the list of workers
and whether `hwdevice.try_write()` succeeds at push time: run the blend
loop from index 0 with `drop_frame = false`; if `drop_frame` is still
false, `send_led_map` runs only when the device lock is available, and
`saved_frame_generation.store(..)` runs unconditionally in the
`!drop_frame` branch. -/
def renderPass (workers : List RenderWorker) (deviceLockAvailable : Bool) : RenderOut :=
  { dropFrame := (renderLoop workers 0 false [] []).1
    sends := (renderLoop workers 0 false [] []).2.1
    newFailed := (renderLoop workers 0 false [] []).2.2
    pushed := ! (renderLoop workers 0 false [] []).1 && deviceLockAvailable
    markerAdvanced := ! (renderLoop workers 0 false [] []).1 }

/-- The indices that a blend loop started at `i0` over fresh accumulators
actually sends `RealizeColorMap` to: failed workers are skipped, and a
non-responding live worker is the last one sent to (the loop breaks). -/
def blendSends (ws : List RenderWorker) (i0 : Nat) : List Nat :=
  match ws with
  | [] => []
  | w :: rest =>
    if w.failed then blendSends rest (i0 + 1)
    else if w.responds then i0 :: blendSends rest (i0 + 1)
    else [i0]

/-- The accumulation step of `process_mouse_events` (main.rs 858-873):
a relative-motion event adds its value to the matching component of the
`(dx, dy, dz)` buffer; other codes leave the buffer unchanged. -/
def mouseAccumulate (buf : Int × Int × Int) (code : EventCode) (value : Int) :
    Int × Int × Int :=
  match code with
  | EventCode.evRelX => (buf.1 + value, buf.2.1, buf.2.2)
  | EventCode.evRelY => (buf.1, buf.2.1 + value, buf.2.2)
  | EventCode.evRelZ => (buf.1, buf.2.1, buf.2.2 + value)
  | _ => buf

/-- The MouseMove flush loop of `process_mouse_events` (main.rs 882-896),
entered when the buffer is nonzero and the rate-limit gate is open:
for each worker index in order, if the index is not in the failed set,
send `MouseMove` built from the CURRENT buffer components and then reset
the buffer to `(0, 0, 0)` - the reset statement is inside the per-worker
loop, directly after the send.  Returns the `(index, dx, dy, dz)` sends
and the final buffer. -/
def mouseMoveFlushLoop (idxs : List Nat) (failedTxs : List Nat)
    (buf : Int × Int × Int) : List (Nat × Int × Int × Int) × (Int × Int × Int) :=
  match idxs with
  | [] => ([], buf)
  | idx :: rest =>
    if ! failedTxs.contains idx then
      let tail := mouseMoveFlushLoop rest failedTxs (0, 0, 0)
      ((idx, buf.1, buf.2.1, buf.2.2) :: tail.1, tail.2)
    else
      mouseMoveFlushLoop rest failedTxs buf

/-- The MouseMove flush over all `n` worker indices with the accumulated
buffer `buf`. -/
def mouseMoveFlush (n : Nat) (failedTxs : List Nat) (buf : Int × Int × Int) :
    List (Nat × Int × Int × Int) × (Int × Int × Int) :=
  mouseMoveFlushLoop (List.range n) failedTxs buf

/-- Dispatch of one raw keyboard event by `process_keyboard_events`
(main.rs 1146-1246). `evKeyToKeyIndex` stands for the external translation
table `util::ev_key_to_key_index`.  The guard `raw_event.value < 2`
discards key repeats entirely; inside it, an `EV_KEY` code is translated
and broadcast as KeyDown (`value > 0`) or KeyUp (otherwise) to every
non-failed worker, and the raw event is then forwarded to the uinput
mirror queue (second component). -/
def processKeyboardEvent (evKeyToKeyIndex : Nat → Nat) (code : EventCode)
    (value : Int) (n : Nat) (failedTxs : List Nat) :
    List (Nat × Message) × Bool :=
  if value < 2 then
    let upcalls :=
      match code with
      | EventCode.evKey c =>
        if 0 < value then
          (broadcastLive n failedTxs).map
            (fun idx => (idx, Message.keyDown (evKeyToKeyIndex c)))
        else
          (broadcastLive n failedTxs).map
            (fun idx => (idx, Message.keyUp (evKeyToKeyIndex c)))
      | _ => []
    (upcalls, true)
  else
    ([], false)

/-- Dispatch of one raw mouse `EV_KEY` (button) event by
`process_mouse_events` (main.rs 977-1057): the translation
`util::ev_key_to_button_index(code)` returns an Option, and the
dispatcher unwraps it, so a `none` translation panics (modelled as
`Except.error ()`); a `some index` is broadcast as MouseButtonDown
(`value > 0`) or MouseButtonUp to every non-failed worker. -/
def processMouseButtonEvent (translation : Option Nat) (value : Int)
    (n : Nat) (failedTxs : List Nat) : Except Unit (List (Nat × Message)) :=
  match translation with
  | none => Except.error ()
  | some index =>
    if 0 < value then
      Except.ok ((broadcastLive n failedTxs).map
        (fun idx => (idx, Message.mouseButtonDown index)))
    else
      Except.ok ((broadcastLive n failedTxs).map
        (fun idx => (idx, Message.mouseButtonUp index)))

/-- The drain loop of `process_system_events` (main.rs 518-592) over a
snapshot of the queue: starting from `loopCounter`, each available event
is broadcast to the non-failed workers; after a processed event the loop
breaks with `pending = true` when `loop_counter > MAX_EVENTS_PER_ITERATION`
(`maxEv`), otherwise the counter is incremented; an empty queue (a
zero-timeout receive that times out) breaks with
`pending = loop_counter > maxEv`.  Returns the recipient list of each
drained event and the pending flag. -/
def sysDrain (queue : List Unit) (loopCounter : Nat) (n : Nat)
    (failedTxs : List Nat) (maxEv : Nat) : List (List Nat) × Bool :=
  match queue with
  | [] => ([], decide (maxEv < loopCounter))
  | _ :: rest =>
    if maxEv < loopCounter then
      ([broadcastLive n failedTxs], true)
    else
      let tail := sysDrain rest (loopCounter + 1) n failedTxs maxEv
      (broadcastLive n failedTxs :: tail.1, tail.2)

/-- The cap/pending logic of the `process_keyboard_events` drain loop
(main.rs 1124-1276); the same shape is used by the HID and mouse drains.
A queue entry is `some e` for a real raw event or `none` for a spurious
one; a spurious event leaves `event_processed = false`, so like an empty
queue it breaks the loop with `pending = loop_counter > maxEv`. -/
def kbdDrainPending (queue : List (Option Unit)) (loopCounter maxEv : Nat) : Bool :=
  match queue with
  | [] => decide (maxEv < loopCounter)
  | none :: _ => decide (maxEv < loopCounter)
  | some _ :: rest =>
    if maxEv < loopCounter then true
    else kbdDrainPending rest (loopCounter + 1) maxEv

/-- A script reference of a profile, reduced to what the pre-flight check
of `switch_profile` consumes: whether `util::is_script_file_accessible`
and `util::is_manifest_file_accessible` succeed for it. -/
structure ScriptRef where
  scriptAccessible : Bool
  manifestAccessible : Bool
deriving DecidableEq

/-- The daemon state touched by `switch_profile`: the Lua sender handles
(`LUA_TXS`, abstracted to tokens), the active profile (its script list),
the slot-to-profile map (`SLOT_PROFILES`), and the active slot. -/
structure DaemonState where
  luaTxs : List Nat
  activeProfile : Option (List ScriptRef)
  slotProfiles : List String
  activeSlot : Nat
deriving DecidableEq

/-- Externally visible effects of `switch_profile`, in program order:
an `Unload` message to an old worker, the spawn of a new worker thread,
and the `ActiveProfileChanged` notification on the dbus API channel. -/
inductive SwitchEffect where
  | unloadSent (tx : Nat)
  | workerSpawned (idx : Nat)
  | activeProfileChanged
deriving DecidableEq

/-- `switch_profile` (main.rs 433-515). `parseResult` is the outcome of
`profiles::Profile::from` reduced to the script list the controller
consumes (`none` = parse error, returned before anything else happens).
The pre-flight loop returns an error at the first script whose file or
manifest is inaccessible, before any `Unload` is sent; only then are the
old workers unloaded and the sender handles cleared, new workers spawned
in list order (a fresh handle is pushed per script), the profile assigned,
`ActiveProfileChanged` emitted, and the slot map entry updated.
Returns the new state, the effect list, and whether the switch succeeded
(`Ok` versus `SwitchProfileError`). -/
def switch_profile (parseResult : Option (List ScriptRef))
    (profileFile : String) (st : DaemonState) :
    DaemonState × List SwitchEffect × Bool :=
  match parseResult with
  | none => (st, [], false)
  | some scripts =>
    if scripts.all (fun s => s.scriptAccessible && s.manifestAccessible) then
      ({ luaTxs := List.range scripts.length
         activeProfile := some scripts
         slotProfiles := st.slotProfiles.set st.activeSlot profileFile
         activeSlot := st.activeSlot },
       st.luaTxs.map SwitchEffect.unloadSent
         ++ (List.range scripts.length).map SwitchEffect.workerSpawned
         ++ [SwitchEffect.activeProfileChanged],
       true)
    else
      (st, [], false)

/-- The startup failure ladder of `main` (main.rs 1738-1933): the
configuration file is parsed first (`process::exit(4)` on error), then
the HID subsystem is opened (`process::exit(1)`), devices are enumerated
(`process::exit(2)`), and the device is opened (`process::exit(3)`);
a run that passes all four returns `Ok(())`, i.e. exit code 0. -/
def mainExitCode (configParseOk hidapiOk enumOk deviceOpenOk : Bool) : Nat :=
  if configParseOk then
    if hidapiOk then
      if enumOk then
        if deviceOpenOk then 0 else 3
      else 2
    else 1
  else 4

/-! Helper lemmas shared by the claim theorems. -/

/-- Membership in a dispatcher broadcast: exactly the indices below the
worker count that are outside the failed set. -/
theorem mem_broadcastLive (n : Nat) (failedTxs : List Nat) (idx : Nat) :
    idx ∈ broadcastLive n failedTxs ↔ idx < n ∧ failedTxs.contains idx = false := by
  simp [broadcastLive, List.mem_filter, List.mem_range]

/-- The sends accumulated by the blend loop are the incoming accumulator
followed by the sends of the loop itself. -/
theorem renderLoop_sends (ws : List RenderWorker) (i0 : Nat) (df : Bool)
    (s nf : List Nat) :
    (renderLoop ws i0 df s nf).2.1 = s ++ blendSends ws i0 := by
  induction ws generalizing i0 df s nf with
  | nil => simp [renderLoop, blendSends]
  | cons w rest ih =>
    cases hfl : w.failed with
    | true => simp [renderLoop, blendSends, hfl, ih]
    | false =>
      cases hr : w.responds with
      | true => simp [renderLoop, blendSends, hfl, hr, ih]
      | false => simp [renderLoop, blendSends, hfl, hr]

/-- Every index the blend loop sends to belongs to a worker that is not in
the failed set. -/
theorem blendSends_mem (ws : List RenderWorker) :
    ∀ i0 m, m ∈ blendSends ws i0 →
    ∃ k, ∃ w, ws.get? k = some w ∧ m = i0 + k ∧ w.failed = false := by
  induction ws with
  | nil => intro i0 m hm; simp [blendSends] at hm
  | cons w rest ih =>
    intro i0 m hm
    cases hfl : w.failed with
    | true =>
      rw [blendSends, if_pos hfl] at hm
      obtain ⟨k, w2, hget, hmk, hwf⟩ := ih (i0 + 1) m hm
      exact ⟨k + 1, w2, by simpa using hget, by omega, hwf⟩
    | false =>
      rw [blendSends, if_neg (by simp [hfl])] at hm
      cases hr : w.responds with
      | true =>
        rw [if_pos hr] at hm
        rcases List.mem_cons.mp hm with h0 | hrest
        · exact ⟨0, w, rfl, by omega, hfl⟩
        · obtain ⟨k, w2, hget, hmk, hwf⟩ := ih (i0 + 1) m hrest
          exact ⟨k + 1, w2, by simpa using hget, by omega, hwf⟩
      | false =>
        rw [if_neg (by simp [hr])] at hm
        have h0 : m = i0 := by simpa using hm
        exact ⟨0, w, rfl, by omega, hfl⟩

/-- The drop-frame flag produced by the blend loop: set exactly when it
came in set, some worker is already failed, or some worker fails to
decrement the blend barrier before the timeout. -/
theorem renderLoop_dropFrame (ws : List RenderWorker) (i0 : Nat) (df : Bool)
    (s nf : List Nat) :
    (renderLoop ws i0 df s nf).1
      = (df || ws.any (fun w => w.failed || ! w.responds)) := by
  induction ws generalizing i0 df s nf with
  | nil => simp [renderLoop]
  | cons w rest ih =>
    cases hfl : w.failed with
    | true => simp [renderLoop, hfl, ih]
    | false =>
      cases hr : w.responds with
      | true => simp [renderLoop, hfl, hr, ih]
      | false => simp [renderLoop, hfl, hr]

/-- A worker whose index is in the failed set when the render pass starts
is never sent `RealizeColorMap`. -/
theorem renderPass_skips_failed (workers : List RenderWorker) (lock : Bool)
    (i : Nat) (hi : i < workers.length)
    (hf : (workers.get ⟨i, hi⟩).failed = true) :
    i ∉ (renderPass workers lock).sends := by
  intro hmem
  have hs : (renderPass workers lock).sends = blendSends workers 0 := by
    simp [renderPass, renderLoop_sends]
  rw [hs] at hmem
  obtain ⟨k, w, hget, hik, hwf⟩ := blendSends_mem workers 0 i hmem

  have hk : k = i := by omega
  subst hk
  rw [List.get?_eq_get hi] at hget
  have hw : workers.get ⟨k, hi⟩ = w := by simpa using hget
  rw [hw, hwf] at hf
  exact Bool.false_ne_true hf

/-- The pending flag of the system-events drain measures whether the
loop counter passed the iteration cap: from counter `c`, it is true
exactly when `maxEv < c + length of the queue`. -/
theorem sysDrain_pending (queue : List Unit) (c n : Nat) (failedTxs : List Nat)
    (maxEv : Nat) :
    ((sysDrain queue c n failedTxs maxEv).2 = true ↔ maxEv < c + queue.length) := by
  induction queue generalizing c with
  | nil => simp [sysDrain]
  | cons e rest ih =>
    by_cases h : maxEv < c
    · simp only [sysDrain, if_pos h, List.length_cons]
      constructor
      · intro _; omega
      · intro _; trivial
    · simp only [sysDrain, if_neg h, List.length_cons]
      rw [ih (c + 1)]
      omega

/-- A keyboard drain over a queue short enough to stay within the cap
reports no pending events. -/
theorem kbdDrainPending_le (queue : List (Option Unit)) :
    ∀ c maxEv, c + queue.length ≤ maxEv →
    kbdDrainPending queue c maxEv = false := by
  induction queue with
  | nil =>
    intro c maxEv h
    simp only [kbdDrainPending, decide_eq_false_iff_not]
    omega
  | cons e rest ih =>
    intro c maxEv h
    simp only [List.length_cons] at h
    cases e with
    | none =>
      simp only [kbdDrainPending, decide_eq_false_iff_not]
      omega
    | some u =>
      have h2 : ¬ maxEv < c := by omega
      rw [kbdDrainPending, if_neg h2]
      exact ih (c + 1) maxEv (by omega)

/-- A keyboard drain over a queue of real events that is longer than the
cap reports pending events. -/
theorem kbdDrainPending_cap (queue : List (Option Unit)) :
    ∀ c maxEv, (∀ e ∈ queue, e.isSome = true) → maxEv < c + queue.length →
    kbdDrainPending queue c maxEv = true := by
  induction queue with
  | nil =>
    intro c maxEv _ hlen
    simp only [List.length_nil, Nat.add_zero] at hlen
    simp only [kbdDrainPending, decide_eq_true_eq]
    omega
  | cons e rest ih =>
    intro c maxEv hall hlen
    simp only [List.length_cons] at hlen
    cases e with
    | none => simpa using hall none (by simp)
    | some u =>
      by_cases h : maxEv < c
      · rw [kbdDrainPending, if_pos h]
      · rw [kbdDrainPending, if_neg h]
        exact ih (c + 1) maxEv (fun e he => hall e (by simp [he])) (by omega)

/-! Claim theorems. -/

/-- Claim C1, counterexample: with a single stuck worker that never
decrements the barrier (the pending counter is observed as 1 forever),
the event-kind wait loop has not exited after one timeout period - nor
after one hundred - contradicting the claim that every event-kind barrier
wait terminates after at most one timeout period. -/
theorem C1_counterexample :
    eventWaitExits (fun _ => 1) 1 = false ∧
    eventWaitExits (fun _ => 1) 100 = false := by
  constructor <;> rfl

/-- Claim C1, amended: a single `wait_for` call is bounded by
`TIMEOUT_CONDITION_MILLIS`, but the dispatcher's event-kind wait loops
never inspect the timeout result and re-wait while the pending count is
nonzero: if the observed pending count never reaches zero the loop never
exits, for any number of timeout periods, and nothing is logged; the loop
exits exactly when some observation reads zero. -/
theorem C1_event_wait_never_proceeds (pendingObs : Nat → Nat) (fuel k : Nat) :
    ((∀ j, pendingObs j ≠ 0) → eventWaitExits pendingObs fuel = false) ∧
    (pendingObs k = 0 → k < fuel → eventWaitExits pendingObs fuel = true) := by
  constructor
  · intro h
    simp only [eventWaitExits, List.any_eq_false, List.mem_range, beq_iff_eq]
    intro x _
    exact h x
  · intro hk hkf
    simp only [eventWaitExits, List.any_eq_true, List.mem_range, beq_iff_eq]
    exact ⟨k, hkf, hk⟩

/-- Witness for C1: with every observation stuck at 1 the loop has not
exited after 3 periods; with the pending counter observed as 0 at the
third observation the loop exits within 3 periods. -/
theorem C1_event_wait_never_proceeds_witness :
    eventWaitExits (fun _ => 1) 3 = false ∧
    eventWaitExits (fun j => if j = 2 then 0 else 5) 3 = true :=
  ⟨(C1_event_wait_never_proceeds (fun _ => 1) 3 0).1 (fun _ => Nat.one_ne_zero),
   (C1_event_wait_never_proceeds (fun j => if j = 2 then 0 else 5) 3 2).2
     rfl (by decide)⟩

/-- Claim C2, counterexample: with a single worker that is in the failed
set, the render pass sets `drop_frame` in the skip branch, sends nothing,
and does not push the canvas to the device, contradicting the claim that
the mere presence of a failed worker does not cause the frame to be
dropped. -/
theorem C2_counterexample :
    (renderPass [⟨true, true, true⟩] true).pushed = false ∧
    (renderPass [⟨true, true, true⟩] true).dropFrame = true ∧
    (renderPass [⟨true, true, true⟩] true).sends = [] := by
  exact ⟨rfl, rfl, rfl⟩

/-- Claim C2, amended: a worker in the failed set is skipped and is sent
no `RealizeColorMap`, but its presence sets `drop_frame`: the frame is
dropped whenever some worker is failed or some live worker misses the
blend-barrier timeout, and the canvas is pushed exactly when `drop_frame`
is unset and the device lock is available. -/
theorem C2_failed_worker_drops_frame (workers : List RenderWorker) (lock : Bool)
    (i : Nat) (hi : i < workers.length)
    (hf : (workers.get ⟨i, hi⟩).failed = true) :
    i ∉ (renderPass workers lock).sends ∧
    (renderPass workers lock).dropFrame
      = workers.any (fun w => w.failed || ! w.responds) ∧
    (renderPass workers lock).pushed
      = (! (renderPass workers lock).dropFrame && lock) := by
  refine ⟨renderPass_skips_failed workers lock i hi hf, ?_, ?_⟩
  · simp [renderPass, renderLoop_dropFrame]
  · rfl

/-- Witness for C2 amended: one failed worker, device lock available. -/
theorem C2_failed_worker_drops_frame_witness :
    0 < [(⟨true, true, true⟩ : RenderWorker)].length ∧
    0 ∉ (renderPass [⟨true, true, true⟩] true).sends ∧
    (renderPass [⟨true, true, true⟩] true).dropFrame
      = [(⟨true, true, true⟩ : RenderWorker)].any (fun w => w.failed || ! w.responds) :=
  ⟨by decide,
   (C2_failed_worker_drops_frame [⟨true, true, true⟩] true 0 (by decide) rfl).1,
   (C2_failed_worker_drops_frame [⟨true, true, true⟩] true 0 (by decide) rfl).2.1⟩

/-- Claim C3 (code bug): evaluating the flush loop with two live workers
and an accumulated buffer of (4, 0, 0): worker 0 receives
MouseMove(4, 0, 0) but worker 1 receives MouseMove(0, 0, 0), because the
buffer reset sits inside the per-worker loop; the claim (and the spec's
sum law) require both workers to receive the full deltas. -/
theorem C3_buffer_reset_inside_loop :
    mouseMoveFlush 2 [] (4, 0, 0)
      = ([(0, 4, 0, 0), (1, 0, 0, 0)], (0, 0, 0)) := by
  rfl

/-- Claim C4 (confirmed): if any script of the target profile, or its
manifest, is inaccessible, `switch_profile` returns the error before any
mutation: the state (sender handles, active profile, slot map) is
unchanged and no effect - in particular no `Unload` and no
`ActiveProfileChanged` - is produced. -/
theorem C4_preflight_abort (scripts : List ScriptRef) (profileFile : String)
    (st : DaemonState) (s : ScriptRef) (hs : s ∈ scripts)
    (hbad : s.scriptAccessible = false ∨ s.manifestAccessible = false) :
    switch_profile (some scripts) profileFile st = (st, [], false) := by
  have hall : scripts.all (fun s => s.scriptAccessible && s.manifestAccessible)
      = false := by
    cases h : scripts.all (fun s => s.scriptAccessible && s.manifestAccessible) with
    | false => rfl
    | true =>
      have hsome := List.all_eq_true.mp h s hs
      rcases hbad with hb | hb <;> simp [hb] at hsome
  simp [switch_profile, hall]

/-- Witness for C4: a one-script profile whose manifest is inaccessible
leaves a concrete state untouched. -/
theorem C4_preflight_abort_witness :
    ((⟨true, false⟩ : ScriptRef) ∈ [(⟨true, false⟩ : ScriptRef)]) ∧
    switch_profile (some [⟨true, false⟩]) "p1.profile"
        ⟨[0, 1], none, ["a.profile"], 0⟩
      = (⟨[0, 1], none, ["a.profile"], 0⟩, [], false) :=
  ⟨List.mem_singleton.mpr rfl,
   C4_preflight_abort [⟨true, false⟩] "p1.profile"
     ⟨[0, 1], none, ["a.profile"], 0⟩ ⟨true, false⟩
     (List.mem_singleton.mpr rfl) (Or.inr rfl)⟩

/-- Claim C5, counterexample: with one worker whose index 0 is in the
failed set, the shutdown path still sends `Quit(0)` to it and arms the
Quit barrier to the full worker count 1, not to the count 0 that would
exclude the failed worker - contradicting the claim that no message of
any kind is sent to a failed worker and that every barrier excludes it. -/
theorem C5_counterexample :
    ([0] : List Nat).contains 0 = true ∧
    (quitRecipients 1).contains 0 = true ∧
    quitArmCount 1 = 1 ∧
    armCount 1 [0] = 0 := by
  exact ⟨rfl, by decide, rfl, rfl⟩

/-- Claim C5, amended: after a worker index enters the failed set, no
event upcall, `RealizeColorMap`, or `Tick` is sent to it and the event
barriers are armed to the count of workers minus failed entries, until the
set is cleared by a profile switch or slot change; at shutdown, however,
`Quit(0)` is sent to every worker index, failed or not, and the Quit
barrier is armed to the full worker count. -/
theorem C5_failed_excluded_except_quit (n : Nat) (failedTxs : List Nat) (idx : Nat)
    (hfx : failedTxs.contains idx = true)
    (workers : List RenderWorker) (lock : Bool) (i : Nat) (hi : i < workers.length)
    (hw : (workers.get ⟨i, hi⟩).failed = true) :
    idx ∉ broadcastLive n failedTxs ∧
    idx ∉ tickRecipients n failedTxs ∧
    i ∉ (renderPass workers lock).sends ∧
    (idx < n → idx ∈ quitRecipients n) ∧
    quitArmCount n = n ∧
    armCount n failedTxs = n - failedTxs.length := by
  refine ⟨?_, ?_, renderPass_skips_failed workers lock i hi hw, ?_, rfl, rfl⟩
  · intro hmem
    rw [mem_broadcastLive] at hmem
    rw [hmem.2] at hfx
    exact Bool.false_ne_true hfx
  · intro hmem
    simp only [tickRecipients, List.mem_filter, List.mem_range,
      Bool.not_eq_eq_eq_not, Bool.not_true] at hmem
    rw [hmem.2] at hfx
    exact Bool.false_ne_true hfx
  · intro hn
    simpa [quitRecipients, List.mem_range] using hn

/-- Witness for C5 amended: one worker, index 0 failed. -/
theorem C5_failed_excluded_except_quit_witness :
    ([0] : List Nat).contains 0 = true ∧
    0 ∉ broadcastLive 1 [0] ∧
    0 ∉ (renderPass [⟨true, true, true⟩] true).sends ∧
    0 ∈ quitRecipients 1 :=
  ⟨rfl,
   (C5_failed_excluded_except_quit 1 [0] 0 rfl [⟨true, true, true⟩] true 0
     (by decide) rfl).1,
   (C5_failed_excluded_except_quit 1 [0] 0 rfl [⟨true, true, true⟩] true 0
     (by decide) rfl).2.2.1,
   (C5_failed_excluded_except_quit 1 [0] 0 rfl [⟨true, true, true⟩] true 0
     (by decide) rfl).2.2.2.1 (by decide)⟩

/-- Claim C6 (code bug): evaluating the render pass with one live,
responsive worker and the device lock unavailable: the frame is not
dropped, the push is skipped, and yet the last-rendered generation marker
is advanced, because the store is inside the not-drop-frame branch but
outside the lock-acquired branch; the claim (and the spec) say the marker
stays unchanged so that the frame is retried. -/
theorem C6_marker_advances_without_push :
    (renderPass [⟨false, true, true⟩] false).dropFrame = false ∧
    (renderPass [⟨false, true, true⟩] false).pushed = false ∧
    (renderPass [⟨false, true, true⟩] false).markerAdvanced = true := by
  exact ⟨rfl, rfl, rfl⟩

/-- Claim C7 (confirmed): a raw keyboard event with value at least 2 (a
key repeat) produces no KeyDown or KeyUp upcall to any worker; and any
event that does produce an upcall has, among the non-negative values the
input layer delivers, value 0 or 1. -/
theorem C7_key_repeat_discarded (evKeyToKeyIndex : Nat → Nat) (code : EventCode)
    (value : Int) (n : Nat) (failedTxs : List Nat) :
    (2 ≤ value →
      (processKeyboardEvent evKeyToKeyIndex code value n failedTxs).1 = []) ∧
    ((processKeyboardEvent evKeyToKeyIndex code value n failedTxs).1 ≠ [] →
      0 ≤ value → value = 0 ∨ value = 1) := by
  constructor
  · intro h2
    have hv : ¬ value < 2 := by omega
    simp [processKeyboardEvent, hv]
  · intro hne h0
    by_cases hv : value < 2
    · omega
    · exact absurd (by simp [processKeyboardEvent, hv]) hne

/-- Witness for C7: a repeat event (value 2) yields no upcalls; a press
(value 1) to one worker yields upcalls and has value in 0 or 1. -/
theorem C7_key_repeat_discarded_witness :
    ((2 : Int) ≤ 2 ∧
      (processKeyboardEvent id (EventCode.evKey 5) 2 2 []).1 = []) ∧
    ((processKeyboardEvent id (EventCode.evKey 5) 1 1 []).1 ≠ [] ∧
      ((1 : Int) = 0 ∨ (1 : Int) = 1)) :=
  ⟨⟨le_refl 2,
    (C7_key_repeat_discarded id (EventCode.evKey 5) 2 2 []).1 (le_refl 2)⟩,
   ⟨by decide,
    (C7_key_repeat_discarded id (EventCode.evKey 5) 1 1 []).2 (by decide) (by decide)⟩⟩

/-- Claim C8 (confirmed): a drain's pending flag is the test, at break
time, of whether the loop counter passed `MAX_EVENTS_PER_ITERATION`; for
the system drain from counter 0 this is true exactly when the queue held
more events than the cap, an empty queue yields false, and for the
keyboard drain a queue of real events longer than the cap yields true
while a queue within the cap yields false. -/
theorem C8_drain_pending_flags (queue : List Unit) (kqueue : List (Option Unit))
    (n : Nat) (failedTxs : List Nat) (maxEv : Nat) :
    ((sysDrain queue 0 n failedTxs maxEv).2 = true ↔ maxEv < queue.length) ∧
    ((sysDrain [] 0 n failedTxs maxEv).2 = false) ∧
    ((∀ e ∈ kqueue, e.isSome = true) → maxEv < kqueue.length →
      kbdDrainPending kqueue 0 maxEv = true) ∧
    (kqueue.length ≤ maxEv → kbdDrainPending kqueue 0 maxEv = false) := by
  refine ⟨?_, ?_, ?_, ?_⟩
  · simpa using sysDrain_pending queue 0 n failedTxs maxEv
  · simp [sysDrain]
  · intro hall hlen
    exact kbdDrainPending_cap kqueue 0 maxEv hall (by omega)
  · intro hle
    exact kbdDrainPending_le kqueue 0 maxEv (by omega)

/-- Witness for C8: cap 0 with two queued events gives pending = true,
an empty queue gives false; cap 5 with two events gives false. -/
theorem C8_drain_pending_flags_witness :
    ((sysDrain [(), ()] 0 2 [] 0).2 = true) ∧
    ((sysDrain [] 0 2 [] 0).2 = false) ∧
    (kbdDrainPending [some (), some ()] 0 0 = true) ∧
    (kbdDrainPending [some (), some ()] 0 5 = false) :=
  ⟨(C8_drain_pending_flags [(), ()] [some (), some ()] 2 [] 0).1.mpr (by decide),
   (C8_drain_pending_flags [(), ()] [some (), some ()] 2 [] 0).2.1,
   (C8_drain_pending_flags [(), ()] [some (), some ()] 2 [] 0).2.2.1
     (by decide) (by decide),
   (C8_drain_pending_flags [(), ()] [some (), some ()] 2 [] 5).2.2.2 (by decide)⟩

/-- Claim C9 (confirmed): the startup ladder exits with 4 on a
configuration parse failure, 1 when the HID subsystem cannot be opened,
2 when no supported device is found, 3 on device open failure, and 0 on
a normal run. -/
theorem C9_exit_codes (hidapiOk enumOk deviceOpenOk : Bool) :
    mainExitCode false hidapiOk enumOk deviceOpenOk = 4 ∧
    mainExitCode true false enumOk deviceOpenOk = 1 ∧
    mainExitCode true true false deviceOpenOk = 2 ∧
    mainExitCode true true true false = 3 ∧
    mainExitCode true true true true = 0 := by
  exact ⟨rfl, rfl, rfl, rfl, rfl⟩

/-- Claim C10 (confirmed): on a mouse `EV_KEY` event the dispatcher
unwraps the button translation, so a code with no button mapping panics
(the error outcome) instead of being ignored, and a mapped code always
dispatches without reaching the panic. -/
theorem C10_unmapped_button_panics (value : Int) (n : Nat) (failedTxs : List Nat)
    (index : Nat) :
    processMouseButtonEvent none value n failedTxs = Except.error () ∧
    ∃ msgs, processMouseButtonEvent (some index) value n failedTxs
      = Except.ok msgs := by
  refine ⟨rfl, ?_⟩
  by_cases h : 0 < value
  · exact ⟨(broadcastLive n failedTxs).map
      (fun idx => (idx, Message.mouseButtonDown index)),
      by simp [processMouseButtonEvent, h]⟩
  · exact ⟨(broadcastLive n failedTxs).map
      (fun idx => (idx, Message.mouseButtonUp index)),
      by simp [processMouseButtonEvent, h]⟩

end Eruption
